import Mathlib

/-!
Verification development for the RedParrot streaming interview pipeline.

The definitions below are a shallow embedding of the TypeScript sources:
  * `src/services/question-detector.ts`  (QuestionDetectorService)
  * `src/services/asr-service.ts`        (ASRService)
  * `src/services/audio-capture.ts`      (AudioCaptureService)
  * `src/services/ai-service.ts`         (AIAnswerService)
  * `src/services/interview-pipeline.ts` (InterviewPipeline)

JavaScript strings are modelled by Lean `String` (all texts involved are
ASCII, so UTF-16 code-unit indexing coincides with character indexing).
JavaScript numbers are modelled by `ℚ` (the computations involved are
exact decimal arithmetic well inside the range where IEEE doubles are
exact for the comparisons performed).  `Date.now()` timestamps are passed
in explicitly as `Nat` parameters.  Asynchronous methods are split at
their `await` points into an entry function and a resumption function,
so that interleavings of concurrently pending backend calls can be
replayed deterministically.
-/

namespace RedParrot

/-- The apostrophe character, used inside a few source string literals. -/
def aposC : Char := Char.ofNat 39

/-- The apostrophe as a one-character string. -/
def aposS : String := String.singleton aposC

/-- ASCII lower-casing of a character (`String.prototype.toLowerCase`
on the ASCII texts involved). -/
def asciiLower (c : Char) : Char :=
  if 65 ≤ c.toNat ∧ c.toNat ≤ 90 then Char.ofNat (c.toNat + 32) else c

/-- ASCII upper-casing of a character (`String.prototype.toUpperCase`
on the ASCII texts involved). -/
def asciiUpper (c : Char) : Char :=
  if 97 ≤ c.toNat ∧ c.toNat ≤ 122 then Char.ofNat (c.toNat - 32) else c

/-- JavaScript `s.toLowerCase()`. -/
def jsToLower (s : String) : String :=
  String.mk (s.data.map asciiLower)

/-- JavaScript `s.trim()`: strip leading and trailing whitespace. -/
def jsTrim (s : String) : String :=
  String.mk (((s.data.dropWhile Char.isWhitespace).reverse.dropWhile Char.isWhitespace).reverse)

/-- JavaScript `s.split(' ')` (single-space separator, empty parts
kept, `[""]` for the empty string). -/
def jsSplitSpace (s : String) : List String :=
  (s.data.splitOnP (fun c => c = Char.ofNat 32)).map String.mk


/-- JavaScript numbers carry exact values here; addition is expressed
through `mkRat` so that it evaluates by kernel reduction (the library
rational addition is irreducible).  `jsAdd a b = a + b` is proved
below. -/
def jsAdd (a b : ℚ) : ℚ := mkRat (a.num * b.den + b.num * a.den) (a.den * b.den)

/-- Subtraction of JavaScript numbers; `jsSub a b = a - b`. -/
def jsSub (a b : ℚ) : ℚ := mkRat (a.num * b.den - b.num * a.den) (a.den * b.den)

/-- Multiplication of JavaScript numbers; `jsMul a b = a * b`. -/
def jsMul (a b : ℚ) : ℚ := mkRat (a.num * b.num) (a.den * b.den)

/-- Division of a JavaScript number by a (positive) natural count;
`jsDivNat a n = a / n`. -/
def jsDivNat (a : ℚ) (n : Nat) : ℚ := mkRat a.num (a.den * n)

/-- The strict comparison `a < b` on JavaScript numbers (cross
multiplication; denominators are positive). -/
def jsLt (a b : ℚ) : Bool := decide (a.num * b.den < b.num * a.den)

/-- The comparison `a ≤ b` on JavaScript numbers. -/
def jsLe (a b : ℚ) : Bool := decide (a.num * b.den ≤ b.num * a.den)

/-- JavaScript `hay.includes(pat)`: substring test. -/
def strIncludes (hay pat : String) : Bool :=
  (List.range (hay.data.length + 1)).any (fun i => pat.data.isPrefixOf (hay.data.drop i))

/-- JavaScript `s.slice (-n)`: the trailing `n` characters of `s`
(the whole string when `s` is shorter than `n`). -/
def jsSliceLast (s : String) (n : Nat) : String :=
  String.mk (s.data.drop (s.data.length - n))

/-- JavaScript `s.split(/\s+/)` applied to an already-trimmed string:
maximal whitespace runs separate the tokens; the empty string yields a
single empty token, exactly as in JavaScript. -/
def jsSplitWs (s : String) : List String :=
  if s = "" then [""]
  else ((s.data.splitOnP (fun c => c.isWhitespace)).map String.mk).filter (fun w => w ≠ "")

/-- A word character in the sense of the JavaScript regex class `\w`,
namely `[A-Za-z0-9_]`. -/
def isWordChar (c : Char) : Bool :=
  c.isAlphanum || c = Char.ofNat 95

/-- The maximal runs of word characters of a string, in order.  A
JavaScript global regex `/\b(w1|w2|...)\b/g` over alphanumeric
alternatives matches exactly those runs that equal one of the
alternatives, so these runs are the candidate matches. -/
def wordRuns (s : String) : List String :=
  ((s.data.splitOnP (fun c => !isWordChar c)).map String.mk).filter (fun w => w ≠ "")

/-- A question pattern from `QUESTION_PATTERNS`: the literal pieces of
the regex source, which are separated by `.+` gaps.  A one-element list
is a plain literal pattern (all patterns carry the `i` flag; they are
only ever applied to lower-cased text, so the pieces are stored in
lower case and matched literally). -/
abbrev QPattern : Type := List String

/-- Characters matched by the JavaScript `.` (any character except a
line terminator). -/
def isDotChar (c : Char) : Bool :=
  c ≠ Char.ofNat 10 && c ≠ Char.ofNat 13

/-- Greedy match of the pattern pieces anchored at the head of `cs`:
returns `some n` when the pieces, separated by nonempty `.+` gaps,
match a prefix of length `n`, taking each gap as large as possible
(the JavaScript greedy backtracking semantics). -/
def greedyFrom : List (List Char) → List Char → Option Nat
  | [], _ => some 0
  | [p], cs => if p.isPrefixOf cs then some p.length else none
  | p :: q :: rest, cs =>
    if p.isPrefixOf cs then
      let tail := cs.drop p.length
      let good := (List.range (tail.length + 1)).filter
        (fun g => decide (1 ≤ g) && (tail.take g).all isDotChar
          && (greedyFrom (q :: rest) (tail.drop g)).isSome)
      match good.max? with
      | none => none
      | some g =>
        match greedyFrom (q :: rest) (tail.drop g) with
        | some n => some (p.length + g + n)
        | none => none
    else none

/-- JavaScript `text.match(pattern)` restricted to what the source
uses: the leftmost (and for each gap greedy) match, returned as the
matched substring, or `none` when the pattern does not occur. -/
def jsMatchFirst (text : String) (pat : QPattern) : Option String :=
  let cs := text.data
  let pieces := pat.map String.data
  match (List.range (cs.length + 1)).find? (fun i => (greedyFrom pieces (cs.drop i)).isSome) with
  | none => none
  | some i =>
    match greedyFrom pieces (cs.drop i) with
    | some n => some (String.mk ((cs.drop i).take n))
    | none => none

/-- JavaScript `pattern.test(text)` for a question pattern. -/
def patTest (pat : QPattern) (text : String) : Bool :=
  (jsMatchFirst text pat).isSome

/-- JavaScript `hay.indexOf(pat)`, as a `Option Nat` (`none` for -1). -/
def jsIndexOf (hay pat : String) : Option Nat :=
  (List.range (hay.data.length + 1)).find? (fun i => pat.data.isPrefixOf (hay.data.drop i))

/-- Deduplication keeping the first occurrence of each element, the
semantics of the JavaScript `[...new Set(keywords)]` idiom. -/
def dedupFirst (seen : List String) : List String → List String
  | [] => []
  | a :: l => if seen.contains a then dedupFirst seen l else a :: dedupFirst (a :: seen) l

/-- Question type enumeration from `question-detector.ts`. -/
inductive QuestionType
  | behavioral | technical | situational | competency | coding | systemDesign
  | general | clarification
  deriving DecidableEq, Repr

/-- Suggested answer format enumeration. -/
inductive AnswerFormat
  | STAR | technical | concise | detailed
  deriving DecidableEq, Repr

/-- `DetectedQuestion` record from `question-detector.ts` (the `type`
field is called `qtype` here because `type` is reserved in Lean). -/
structure DetectedQuestion where
  text : String
  qtype : QuestionType
  confidence : ℚ
  keywords : List String
  suggestedAnswerFormat : AnswerFormat
  timestamp : Nat
  deriving DecidableEq, Repr

/-- The `QUESTION_PATTERNS` table, in the object-literal insertion
order that `Object.entries` iterates (behavioral, technical,
situational, competency, coding, system-design).  Every pattern is an
`i`-flagged regex whose source is a literal except for `.+` gaps; it is
stored as its list of literal pieces in lower case. -/
def QUESTION_PATTERNS : List (QuestionType × List QPattern) :=
  [ (QuestionType.behavioral,
      [ ["tell me about a time when"], ["describe a situation where"],
        ["give me an example of"], ["have you ever had to"],
        ["can you share an experience"], ["walk me through a time"],
        ["describe a challenge you faced"], ["tell me about your experience with"],
        ["how did you handle"], ["what did you do when"],
        ["describe the most difficult"], ["tell me about a project"] ]),
    (QuestionType.technical,
      [ ["how does ", " work"], ["what is the difference between"],
        ["explain ", " to me"], ["how would you implement"],
        ["what are the advantages of"], ["can you explain"],
        ["what is your understanding of"], ["describe how ", " works"],
        ["what happens when"], ["why would you use"],
        ["compare ", " and"], ["what" ++ aposS ++ "s the time complexity"],
        ["how do you optimize"] ]),
    (QuestionType.situational,
      [ ["what would you do if"], ["how would you approach"],
        ["imagine you"], ["suppose you"], ["if you were"],
        ["how would you handle"], ["what if"], ["let" ++ aposS ++ "s say"],
        ["hypothetically"] ]),
    (QuestionType.competency,
      [ ["what are your strengths"], ["what is your greatest"],
        ["how do you prioritize"], ["how do you manage"],
        ["what" ++ aposS ++ "s your approach to"], ["how do you stay"],
        ["what motivates you"], ["how do you deal with"] ]),
    (QuestionType.coding,
      [ ["write a function"], ["implement ", " algorithm"],
        ["solve this problem"], ["code a solution"], ["write code to"],
        ["can you code"], ["leetcode"], ["hackerrank"], ["data structure"],
        ["reverse ", " string"], ["find ", " in ", " array"],
        ["sort ", " array"] ]),
    (QuestionType.systemDesign,
      [ ["design a system"], ["how would you design"],
        ["architect ", " solution"], ["scale ", " to"], ["design ", " like"],
        ["build ", " from scratch"], ["high-level design"],
        ["system architecture"] ]) ]

/-- The `QUESTION_INDICATORS` list. -/
def QUESTION_INDICATORS : List String :=
  [ "what", "why", "how", "when", "where", "who", "which",
    "can you", "could you", "would you", "do you", "did you",
    "tell me", "describe", "explain", "share", "walk me through" ]

/-- The `QUESTION_END_INDICATORS` list. -/
def QUESTION_END_INDICATORS : List String :=
  [ "?", "please", "thank you", "go ahead" ]

/-- `QuestionDetectorService` mutable state: the rolling text buffer,
the timestamp of the last emitted question, the question history, and
the last processed fragment text. -/
structure DetectorState where
  transcriptionBuffer : String
  lastQuestionTime : Nat
  detectedQuestions : List DetectedQuestion
  lastProcessedText : String
  deriving DecidableEq, Repr

/-- Detector field initializers: empty buffer, `lastQuestionTime = 0`,
no history, empty last-processed text. -/
def initialDetectorState : DetectorState :=
  { transcriptionBuffer := "", lastQuestionTime := 0,
    detectedQuestions := [], lastProcessedText := "" }

/-- The `minQuestionGapMs` field initializer (2000 ms). -/
def minQuestionGapMs : Nat := 2000

/-- `isCompleteSentence` from `question-detector.ts`: terminal
punctuation, an end indicator somewhere in the lower-cased text, or at
least 8 whitespace tokens whose first token contains a question
indicator. -/
def isCompleteSentence (text : String) : Bool :=
  let trimmed := jsTrim text
  if (match trimmed.data.getLast? with
      | some c => c = Char.ofNat 46 || c = Char.ofNat 63 || c = Char.ofNat 33
      | none => false) then
    true
  else if QUESTION_END_INDICATORS.any (fun ind => strIncludes (jsToLower trimmed) ind) then
    true
  else
    let words := jsSplitWs trimmed
    if words.length ≥ 8 then
      let firstWord := jsToLower (words.headD "")
      QUESTION_INDICATORS.any (fun q => strIncludes firstWord q)
    else false

/-- The `interviewPhrases` list local to `looksLikeQuestion`. -/
def interviewPhrases : List String :=
  [ "tell me about", "walk me through", "describe", "explain",
    "what is your", "how do you", "why do you" ]

/-- `looksLikeQuestion` from `question-detector.ts` (its argument is
already lower-cased by the caller). -/
def looksLikeQuestion (text : String) : Bool :=
  if strIncludes text "?" then true
  else if QUESTION_INDICATORS.any
      (fun ind => (ind ++ " ").data.isPrefixOf text.data
        || (ind ++ ",").data.isPrefixOf text.data) then true
  else interviewPhrases.any (fun phrase => strIncludes text phrase)


/-- JavaScript `Math.max` on two numbers. -/
def jsMax (a b : ℚ) : ℚ := if jsLe a b then b else a

/-- JavaScript `Math.min` on two numbers. -/
def jsMin (a b : ℚ) : ℚ := if jsLe a b then a else b

/-- The alternatives of the `questionWords` regex
`/\b(what|how|why|when|where|who|which|tell|describe|explain)\b/gi`
in `calculateConfidence`. -/
def questionWordList : List String :=
  [ "what", "how", "why", "when", "where", "who", "which",
    "tell", "describe", "explain" ]

/-- Number of matches of the `questionWords` regex: the word-boundary
anchors make each match a maximal word-character run equal to one of
the alternatives (case-insensitively). -/
def countQuestionWords (text : String) : Nat :=
  (wordRuns text).countP (fun w => questionWordList.contains (jsToLower w))

/-- `calculateConfidence` from `question-detector.ts`: base 0.6 for a
pattern match, +0.2 for a question mark, +0.1 for more than one
question-word match, -0.2 when `text.split(' ')` has fewer than 5
parts, clamped to [0, 1]; 0 when the pattern does not match. -/
def calculateConfidence (text : String) (pattern : QPattern) : ℚ :=
  if ¬ patTest pattern text then 0
  else
    let confidence : ℚ := mkRat 6 10
    let confidence := if strIncludes text "?" then jsAdd confidence (mkRat 2 10) else confidence
    let confidence := if countQuestionWords text > 1 then jsAdd confidence (mkRat 1 10) else confidence
    let confidence := if (jsSplitSpace text).length < 5 then jsSub confidence (mkRat 2 10) else confidence
    jsMin 1 (jsMax 0 confidence)

/-- The stop-word list local to `extractKeywords`. -/
def keywordStopWords : List String :=
  [ "the", "and", "for", "with", "that", "this", "your", "about" ]

/-- The alternatives of the `technicalTerms` regex in
`extractKeywords`. -/
def technicalTermList : List String :=
  [ "api", "database", "algorithm", "function", "class", "system",
    "design", "performance", "security", "testing", "deployment" ]

/-- `extractKeywords` from `question-detector.ts`: up to five
sufficiently long non-stop-words following the pattern match, plus the
lower-cased technical terms occurring in the text, first occurrences
kept on deduplication. -/
def extractKeywords (text : String) (pattern : QPattern) : List String :=
  let fromMatch :=
    match jsMatchFirst text pattern with
    | none => []
    | some m =>
      let idx := (jsIndexOf text m).getD 0
      let afterMatch := String.mk (text.data.drop (idx + m.data.length))
      ((jsSplitWs afterMatch).filter
        (fun w => w.length > 3 && !keywordStopWords.contains w)).take 5
  let tech := ((wordRuns text).filter
    (fun w => technicalTermList.contains (jsToLower w))).map jsToLower
  dedupFirst [] (fromMatch ++ tech)

/-- `cleanQuestionText` from `question-detector.ts`: trim, capitalize
the first character, and append a question mark when there is no
terminal punctuation. -/
def cleanQuestionText (text : String) : String :=
  let cleaned := jsTrim text
  let cleaned :=
    match cleaned.data with
    | [] => ""
    | c :: rest => String.mk (asciiUpper c :: rest)
  if (match cleaned.data.getLast? with
      | some c => c = Char.ofNat 63 || c = Char.ofNat 46 || c = Char.ofNat 33
      | none => false) then cleaned
  else cleaned ++ "?"

/-- `getSuggestedFormat` from `question-detector.ts`. -/
def getSuggestedFormat : QuestionType → AnswerFormat
  | QuestionType.behavioral => AnswerFormat.STAR
  | QuestionType.situational => AnswerFormat.STAR
  | QuestionType.technical => AnswerFormat.technical
  | QuestionType.coding => AnswerFormat.technical
  | QuestionType.systemDesign => AnswerFormat.detailed
  | _ => AnswerFormat.concise

/-- `analyzeForQuestion` from `question-detector.ts`.  The
`Date.now()` used for the timestamp is the same tick as the one passed
to `detectQuestion`.  The nested loops tracking the single highest
confidence (strict improvement only, so the first registered pattern
wins ties) are folded left in table order. -/
def analyzeForQuestion (text : String) (now : Nat) : Option DetectedQuestion :=
  let normalizedText := jsToLower (jsTrim text)
  if ¬ looksLikeQuestion normalizedText then none
  else
    let best := QUESTION_PATTERNS.foldl
      (fun acc entry => entry.2.foldl
        (fun (acc : QuestionType × ℚ × List String) pattern =>
          if patTest pattern normalizedText then
            let confidence := calculateConfidence normalizedText pattern
            if jsLt acc.2.1 confidence then
              (entry.1, confidence, extractKeywords normalizedText pattern)
            else acc
          else acc)
        acc)
      (QuestionType.general, (0 : ℚ), ([] : List String))
    let highestConfidence :=
      if best.2.1 = 0 ∧ looksLikeQuestion normalizedText then mkRat 5 10 else best.2.1
    if jsLt highestConfidence (mkRat 3 10) then none
    else some
      { text := cleanQuestionText text,
        qtype := best.1,
        confidence := highestConfidence,
        keywords := best.2.2,
        suggestedAnswerFormat := getSuggestedFormat best.1,
        timestamp := now }

/-- The buffer cleaning step of `detectQuestion`: trim, and when the
result exceeds 400 characters keep only the trailing 300. -/
def bufferNormalize (b : String) : String :=
  let b := jsTrim b
  if b.length > 400 then jsSliceLast b 300 else b

/-- The buffer after the dedup-append step of `detectQuestion` for a
fragment `t`: append `t` (space-separated) unless it is already a
substring of the buffer, then clean. -/
def bufferAfterAppend (buffer t : String) : String :=
  bufferNormalize (if strIncludes buffer t then buffer else buffer ++ " " ++ t)

/-- `detectQuestion` from `question-detector.ts`, with `Date.now()`
passed in as `now`.  Returns the emitted question (if any) and the
updated detector state. -/
def detectQuestion (t : String) (now : Nat) (s : DetectorState) :
    Option DetectedQuestion × DetectorState :=
  if t = s.lastProcessedText then (none, s)
  else
    let buf := bufferAfterAppend s.transcriptionBuffer t
    let s1 : DetectorState := { s with lastProcessedText := t, transcriptionBuffer := buf }
    if ¬ isCompleteSentence buf then (none, s1)
    else
      match analyzeForQuestion buf now with
      | none => (none, s1)
      | some question =>
        if now - s1.lastQuestionTime < minQuestionGapMs then (none, s1)
        else
          (some question,
            { s1 with
              lastQuestionTime := now,
              detectedQuestions := s1.detectedQuestions ++ [question],
              transcriptionBuffer := "",
              lastProcessedText := "" })

/-- ASR provider selector from `asr-service.ts`. -/
inductive ASRProvider
  | groq | whisperLocal | auto
  deriving DecidableEq, Repr

/-- `ASRConfig` from `asr-service.ts` (the fields the control flow
reads). -/
structure ASRConfig where
  provider : ASRProvider
  groqApiKey : String
  language : String
  translateToEnglish : Bool
  deriving DecidableEq, Repr

/-- `TranscriptionResult` from `asr-service.ts`. -/
structure TranscriptionResult where
  text : String
  language : String
  confidence : ℚ
  duration : ℚ
  timestamp : Nat
  deriving DecidableEq, Repr

/-- `ASRService.initialize`: reject a Groq configuration without an
API key, accept everything else (the try body cannot throw). -/
def asrInitialize (cfg : ASRConfig) : Bool :=
  if cfg.provider = ASRProvider.groq ∧ cfg.groqApiKey = "" then false else true

/-- The `maxConcurrentRequests` field initializer of `ASRService`. -/
def maxConcurrentRequests : Nat := 2

/-- The synchronous admission prefix of `ASRService.transcribe`: with
`pending` requests in flight, a new call is dropped (`none`, the
method returns null without dispatching a backend request) when the
cap is reached, and otherwise increments the pending counter. -/
def transcribeBegin (pending : Nat) : Option Nat :=
  if pending ≥ maxConcurrentRequests then none else some (pending + 1)

/-- The completion suffix of `ASRService.transcribe`: the `finally`
clause decrements the pending counter whatever the outcome of the
backend call was (`some result` on success, `none` when the backend
errored or returned nothing). -/
def transcribeFinish (_outcome : Option TranscriptionResult) (pending : Nat) : Nat :=
  pending - 1

/-- An observable event of the transcription admission counter: a new
`transcribe` call arriving, or an in-flight call completing with some
outcome. -/
inductive AsrEvent
  | arrive
  | complete (outcome : Option TranscriptionResult)
  deriving DecidableEq, Repr

/-- One step of the pending-request counter under an event, composed
from `transcribeBegin` and `transcribeFinish`. -/
def asrStep (pending : Nat) : AsrEvent → Nat
  | AsrEvent.arrive =>
    match transcribeBegin pending with
    | none => pending
    | some p => p
  | AsrEvent.complete outcome => transcribeFinish outcome pending

/-- The pending-request counter after a sequence of events. -/
def asrRun (pending : Nat) (events : List AsrEvent) : Nat :=
  events.foldl asrStep pending

/-- `AudioCaptureService` state relevant to chunk emission: the queue
of sample buffers pushed by `onaudioprocess`, whether a chunk callback
is installed, and the timestamp of the previous tick. -/
structure AudioState where
  audioBuffer : List (List ℚ)
  hasCallback : Bool
  lastChunkTime : Nat
  deriving DecidableEq, Repr

/-- `AudioChunk` from `audio-capture.ts`. -/
structure AudioChunk where
  data : List ℚ
  timestamp : Nat
  duration : Nat
  deriving DecidableEq, Repr

/-- The VAD threshold constant of `detectVoiceActivity` (0.01). -/
def vadThreshold : ℚ := mkRat 1 100

/-- Sum of the squared samples. -/
def sumSquares (l : List ℚ) : ℚ :=
  l.foldl (fun acc x => jsAdd acc (jsMul x x)) 0

/-- `detectVoiceActivity` from `audio-capture.ts`.  The source
computes `Math.sqrt(sum / length) > threshold`; square root is
strictly monotone on nonnegatives, so this equals
`sum / length > threshold ^ 2`, which is exact on `ℚ`.  For an empty
buffer the source computes `NaN > threshold`, which is false. -/
def detectVoiceActivity (audioData : List ℚ) : Bool :=
  if audioData.length = 0 then false
  else jsLt (jsMul vadThreshold vadThreshold) (jsDivNat (sumSquares audioData) audioData.length)

/-- The root-mean-square energy of a sample segment, as the
specification words it (zero for the empty segment). -/
noncomputable def rmsEnergy (audioData : List ℚ) : ℝ :=
  Real.sqrt (((sumSquares audioData : ℚ) : ℝ) / (audioData.length : ℝ))

/-- `emitChunk` from `audio-capture.ts`, with `Date.now()` passed as
`now`: early return when nothing is buffered or no callback is
installed; otherwise concatenate the buffers, invoke the callback
exactly when voice activity is detected, and reset the buffer either
way.  The returned option is the chunk handed to the callback. -/
def emitChunk (now : Nat) (s : AudioState) : Option AudioChunk × AudioState :=
  if s.audioBuffer.isEmpty || !s.hasCallback then (none, s)
  else
    let combined := s.audioBuffer.flatten
    let hasAudio := detectVoiceActivity combined
    ((if hasAudio then
        some { data := combined, timestamp := s.lastChunkTime, duration := now - s.lastChunkTime }
      else none),
     { s with audioBuffer := [], lastChunkTime := now })

/-- Answer length selector from `ai-service.ts`. -/
inductive AnswerLength
  | short | medium | long
  deriving DecidableEq, Repr

/-- The `LENGTH_CONFIG` duration column (seconds). -/
def lengthDuration : AnswerLength → Nat
  | AnswerLength.short => 30
  | AnswerLength.medium => 60
  | AnswerLength.long => 90

/-- `GeneratedAnswer` from `ai-service.ts`. -/
structure GeneratedAnswer where
  text : String
  length : AnswerLength
  estimatedDuration : Nat
  format : AnswerFormat
  generatedAt : Nat
  deriving DecidableEq, Repr

/-- Case-insensitive prefix test (the leading-anchor regexes in
`formatAnswer` are `i`-flagged; the alternatives are stored in lower
case). -/
def startsWithCI (s p : String) : Bool :=
  decide (((s.data.take p.data.length).map asciiLower) = p.data)

/-- Strip the first of the given alternatives that matches at the
start of the string, together with the following whitespace, exactly
like `s.replace(/^(a1|a2|...)\s*/i, '')`. -/
def stripLeadingAlt (alts : List String) (s : String) : String :=
  match alts.find? (fun a => startsWithCI s a) with
  | none => s
  | some a => String.mk ((s.data.drop a.data.length).dropWhile Char.isWhitespace)

/-- The first filler-phrase alternation of `formatAnswer`. -/
def fillerAlts1 : List String :=
  [ "here" ++ aposS ++ "s", "here is", "sure,", "of course,", "certainly," ]

/-- The second filler-phrase alternation of `formatAnswer`. -/
def fillerAlts2 : List String :=
  [ "i" ++ aposS ++ "d be happy to", "i" ++ aposS ++ "ll", "let me" ]

/-- `formatAnswer` from `ai-service.ts`: trim, strip the two families
of leading filler phrases, and capitalize the first character. -/
def formatAnswer (text : String) : String :=
  let formatted := stripLeadingAlt fillerAlts2 (stripLeadingAlt fillerAlts1 (jsTrim text))
  match formatted.data with
  | [] => ""
  | c :: rest => String.mk (asciiUpper c :: rest)

/-- A generation backend for one fixed question: the outcome of the
LLM call for each length variant (`Except.error` models the thrown
`Groq API error`).  The prompt is a pure function of the question and
the length, so indexing outcomes by length is faithful. -/
abbrev AnswerBackend : Type := AnswerLength → Except String String

/-- `AIAnswerService.generateAnswer` for the `groq` provider, whose
backend call throws on failure (no catch in this method): map the
backend response through `formatAnswer` into a `GeneratedAnswer`,
propagating the failure otherwise. -/
def generateAnswer (question : DetectedQuestion) (length : AnswerLength)
    (backend : AnswerBackend) (now : Nat) : Except String GeneratedAnswer :=
  (backend length).map (fun responseText =>
    { text := formatAnswer responseText,
      length := length,
      estimatedDuration := lengthDuration length,
      format := question.suggestedAnswerFormat,
      generatedAt := now })

/-- `Promise.all` over three already-started promises: succeeds with
all three values when every one resolves, and rejects (here: with the
first rejection in argument order) when any one rejects. -/
def jsPromiseAll3 {ε α : Type} (a b c : Except ε α) : Except ε (α × α × α) := do
  let x ← a
  let y ← b
  let z ← c
  pure (x, y, z)

/-- The `currentAnswers` record shape (`Record<AnswerLength,
GeneratedAnswer>` with possibly missing entries). -/
structure AnswerBundle where
  short : Option GeneratedAnswer
  medium : Option GeneratedAnswer
  long : Option GeneratedAnswer
  deriving DecidableEq, Repr

/-- The all-cleared bundle (`{ short: undefined, medium: undefined,
long: undefined }`). -/
def emptyBundle : AnswerBundle :=
  { short := none, medium := none, long := none }

/-- Indexing a bundle by length (`answers[length]`). -/
def bundleGet (b : AnswerBundle) : AnswerLength → Option GeneratedAnswer
  | AnswerLength.short => b.short
  | AnswerLength.medium => b.medium
  | AnswerLength.long => b.long

/-- `AIAnswerService.generateAllLengths`: the three length variants
are requested concurrently and joined with `Promise.all`, so the
record of answers is produced only when all three succeed. -/
def generateAllLengths (question : DetectedQuestion) (backend : AnswerBackend)
    (now : Nat) : Except String AnswerBundle :=
  (jsPromiseAll3
    (generateAnswer question AnswerLength.short backend now)
    (generateAnswer question AnswerLength.medium backend now)
    (generateAnswer question AnswerLength.long backend now)).map
    (fun r => { short := some r.1, medium := some r.2.1, long := some r.2.2 })

/-- `PipelineStatus` from `interview-pipeline.ts`. -/
inductive PipelineStatus
  | idle | initializing | listening | transcribing | detecting | generating | error
  deriving DecidableEq, Repr

/-- The slice of the Zustand interview store that the pipeline
mutates. -/
structure StoreState where
  currentTranscription : String
  transcriptionHistory : List TranscriptionResult
  currentQuestion : Option DetectedQuestion
  currentAnswers : AnswerBundle
  isGenerating : Bool
  isProcessing : Bool
  deriving DecidableEq, Repr

/-- Store initial values for the fields above. -/
def storeInit : StoreState :=
  { currentTranscription := "", transcriptionHistory := [],
    currentQuestion := none, currentAnswers := emptyBundle,
    isGenerating := false, isProcessing := false }

/-- An observer callback invocation or overlay dispatch, recorded in
order of occurrence. -/
inductive CbEvent
  | onTranscription (result : TranscriptionResult)
  | onQuestionDetected (question : DetectedQuestion)
  | onAnswerGenerated (answer : GeneratedAnswer) (length : AnswerLength)
  | onError (message : String)
  | onStatusChange (status : PipelineStatus)
  | displayAnswer (questionText : String) (answers : AnswerBundle)
  deriving DecidableEq, Repr

/-- `InterviewPipeline` state: the running flag, the status, the
store, the question detector, the ASR pending-request counter, and the
log of observer callbacks issued so far. -/
structure PipeState where
  isRunning : Bool
  status : PipelineStatus
  store : StoreState
  detector : DetectorState
  asrPending : Nat
  events : List CbEvent
  deriving DecidableEq, Repr

/-- Pipeline state as constructed (idle, nothing pending). -/
def pipeInit : PipeState :=
  { isRunning := false, status := PipelineStatus.idle, store := storeInit,
    detector := initialDetectorState, asrPending := 0, events := [] }

/-- `setStatus`: record the status and notify `onStatusChange`. -/
def setStatus (st : PipelineStatus) (s : PipeState) : PipeState :=
  { s with status := st, events := s.events ++ [CbEvent.onStatusChange st] }

/-- `PipelineConfig` fields the modelled control flow reads. -/
structure PipelineConfig where
  groqApiKey : String
  asrProvider : ASRProvider
  language : String
  defaultAnswerLength : AnswerLength
  deriving DecidableEq, Repr

/-- The `ASRConfig` the pipeline constructor passes to its
`ASRService` (`translateToEnglish` keeps its default). -/
def pipeAsrConfig (cfg : PipelineConfig) : ASRConfig :=
  { provider := cfg.asrProvider, groqApiKey := cfg.groqApiKey,
    language := cfg.language, translateToEnglish := true }

/-- `InterviewPipeline.start`, with the success of audio acquisition
passed as `captureStarted` (it depends on the external audio devices).
A false `asrInitialize` or a failed capture throws into the catch
block, which sets the `error` status, notifies `onError`, and returns
false. -/
def pipeStart (cfg : PipelineConfig) (captureStarted : Bool) (s : PipeState) :
    Bool × PipeState :=
  if s.isRunning then (false, s)
  else
    let s := setStatus PipelineStatus.initializing s
    let asrReady := asrInitialize (pipeAsrConfig cfg)
    if !asrReady then
      let s := setStatus PipelineStatus.error s
      (false, { s with events := s.events ++ [CbEvent.onError "Failed to initialize ASR service"] })
    else if !captureStarted then
      let s := setStatus PipelineStatus.error s
      (false, { s with events := s.events ++ [CbEvent.onError "Failed to start audio capture"] })
    else
      (true, setStatus PipelineStatus.listening { s with isRunning := true })

/-- `InterviewPipeline.stop`: stop capture and transcription, clear
the running flag, go to `idle`. -/
def pipeStop (s : PipeState) : PipeState :=
  setStatus PipelineStatus.idle { s with isRunning := false }

/-- The synchronous prefix of `handleAudioChunk`, up to the `await`
of `asrService.transcribe`: bail out when the pipeline is not running;
otherwise go to `transcribing` and run the admission check of
`transcribe`.  Returns `true` when a backend transcription request was
dispatched (so that a matching `pipeFinishTranscription` is pending);
when the concurrency cap drops the chunk, `transcribe` returns null
synchronously and the rest of `handleAudioChunk` runs at once. -/
def pipeBeginChunk (s : PipeState) : PipeState × Bool :=
  if !s.isRunning then (s, false)
  else
    let s := setStatus PipelineStatus.transcribing s
    match transcribeBegin s.asrPending with
    | none => (setStatus PipelineStatus.listening s, false)
    | some p => ({ s with asrPending := p }, true)

/-- The continuation of `handleAudioChunk` after the transcription
backend call settles, with outcome `result` at time `now`: decrement
the pending counter (`finally` in `transcribe`), then — with no
further check of `isRunning` — notify and record the transcription,
run the question detector, and on a detected question clear the old
transcription and answers, set the new current question, notify, and
enter `generateAnswers` up to its `await Promise.all` (so the returned
option carries the question whose generation is now pending). -/
def pipeFinishTranscription (result : Option TranscriptionResult) (now : Nat)
    (s : PipeState) : PipeState × Option DetectedQuestion :=
  let s := { s with asrPending := transcribeFinish result s.asrPending }
  match result with
  | none => (setStatus PipelineStatus.listening s, none)
  | some r =>
    if r.text = "" then (setStatus PipelineStatus.listening s, none)
    else
      let s := { s with
        events := s.events ++ [CbEvent.onTranscription r],
        store := { s.store with
          transcriptionHistory := s.store.transcriptionHistory ++ [r],
          currentTranscription := s.store.currentTranscription ++ " " ++ r.text } }
      let s := setStatus PipelineStatus.detecting s
      let step := detectQuestion r.text now s.detector
      let s := { s with detector := step.2 }
      match step.1 with
      | none => (setStatus PipelineStatus.listening s, none)
      | some q =>
        let st := s.store
        let st := { st with currentTranscription := "", transcriptionHistory := [] }
        let st := { st with currentAnswers := emptyBundle, isGenerating := false }
        let st := { st with currentQuestion := some q, isProcessing := false }
        let s := { s with store := st, events := s.events ++ [CbEvent.onQuestionDetected q] }
        let s := setStatus PipelineStatus.generating s
        let s := { s with store := { s.store with isGenerating := true } }
        (s, some q)

/-- The `Promise.all` of the three `aiService.generateAnswer` calls
inside `InterviewPipeline.generateAnswers`. -/
def pipeGenerationOutcome (question : DetectedQuestion) (backend : AnswerBackend)
    (now : Nat) : Except String (GeneratedAnswer × GeneratedAnswer × GeneratedAnswer) :=
  jsPromiseAll3
    (generateAnswer question AnswerLength.short backend now)
    (generateAnswer question AnswerLength.medium backend now)
    (generateAnswer question AnswerLength.long backend now)

/-- The continuation of `generateAnswers` (and of the enclosing
`handleAudioChunk`) after the `Promise.all` settles: on success the
answers are written to the store unconditionally — no epoch, session
or current-question check — the default-length answer is announced,
and the overlay is updated; on rejection the error is caught and
reported.  Either way `setGenerating(false)` runs and the pipeline
returns to `listening`. -/
def pipeFinishGeneration (question : DetectedQuestion)
    (outcome : Except String (GeneratedAnswer × GeneratedAnswer × GeneratedAnswer))
    (defaultLength : AnswerLength) (s : PipeState) : PipeState :=
  match outcome with
  | Except.ok r =>
    let bundle : AnswerBundle := { short := some r.1, medium := some r.2.1, long := some r.2.2 }
    let s := { s with store := { s.store with currentAnswers := bundle, isGenerating := false } }
    let s :=
      match bundleGet bundle defaultLength with
      | some a => { s with events := s.events ++ [CbEvent.onAnswerGenerated a defaultLength] }
      | none => s
    let s := { s with events := s.events ++ [CbEvent.displayAnswer question.text bundle] }
    let s := { s with store := { s.store with isGenerating := false } }
    setStatus PipelineStatus.listening s
  | Except.error e =>
    let s := { s with events := s.events ++ [CbEvent.onError e] }
    let s := { s with store := { s.store with isGenerating := false } }
    setStatus PipelineStatus.listening s

/-! ## Bridge lemmas between the reducible arithmetic and `ℚ` -/

/-- `jsAdd` is rational addition. -/
theorem jsAdd_eq (a b : ℚ) : jsAdd a b = a + b :=
  (Rat.add_def' a b).symm

/-- `jsSub` is rational subtraction. -/
theorem jsSub_eq (a b : ℚ) : jsSub a b = a - b :=
  (Rat.sub_def' a b).symm

/-- `jsMul` is rational multiplication. -/
theorem jsMul_eq (a b : ℚ) : jsMul a b = a * b := by
  rw [jsMul, Rat.mul_def, Rat.normalize_eq_mkRat]

/-- `jsLt` decides the rational strict order. -/
theorem jsLt_iff (a b : ℚ) : jsLt a b = true ↔ a < b := by
  rw [jsLt, decide_eq_true_iff, Rat.lt_def]

/-- `jsLe` decides the rational order. -/
theorem jsLe_iff (a b : ℚ) : jsLe a b = true ↔ a ≤ b := by
  rw [jsLe, decide_eq_true_iff, Rat.le_def]

/-- `jsMax` is the rational maximum. -/
theorem jsMax_eq (a b : ℚ) : jsMax a b = max a b := by
  rw [jsMax, max_def]
  by_cases h : a ≤ b
  · rw [if_pos ((jsLe_iff a b).mpr h), if_pos h]
  · rw [if_neg (fun hc => h ((jsLe_iff a b).mp hc)), if_neg h]

/-- `jsMin` is the rational minimum. -/
theorem jsMin_eq (a b : ℚ) : jsMin a b = min a b := by
  rw [jsMin, min_def]
  by_cases h : a ≤ b
  · rw [if_pos ((jsLe_iff a b).mpr h), if_pos h]
  · rw [if_neg (fun hc => h ((jsLe_iff a b).mp hc)), if_neg h]

/-- `jsDivNat` divides a rational by a natural number. -/
theorem jsDivNat_eq (a : ℚ) (n : Nat) : jsDivNat a n = a / (n : ℚ) := by
  rw [jsDivNat, Rat.mkRat_eq_divInt, Rat.divInt_eq_div]
  push_cast
  rw [div_mul_eq_div_div]
  congr 1
  exact Rat.num_div_den a

/-! ## Specification-side definitions

These definitions follow the wording of the specification (not the
code); they exist to be compared against the embedded code. -/

/-- Number of distinct interrogative words appearing as words of the
text (the specification counts distinct words, claim C8). -/
def distinctQuestionWordCount (text : String) : Nat :=
  (questionWordList.filter (fun q => (wordRuns text).any (fun w => jsToLower w = q))).length

/-- The confidence formula exactly as claim C8 words it: base 0.6,
+0.2 for a question mark, +0.1 when at least 2 distinct interrogative
words appear, -0.2 when the text has fewer than 5 words, clamped to
[0, 1]. -/
def specConfidenceClaimed (text : String) : ℚ :=
  min 1 (max 0 ((6 / 10 : ℚ)
    + (if strIncludes text "?" then (2 / 10 : ℚ) else 0)
    + (if 2 ≤ distinctQuestionWordCount text then (1 / 10 : ℚ) else 0)
    - (if (jsSplitWs text).length < 5 then (2 / 10 : ℚ) else 0)))

/-- The confidence formula with the two corrections the code forces:
the interrogative-word bonus counts regex matches with multiplicity
(not distinct words), and the short-text penalty counts
single-space-separated segments. -/
def specConfidenceAmended (text : String) : ℚ :=
  min 1 (max 0 ((6 / 10 : ℚ)
    + (if strIncludes text "?" then (2 / 10 : ℚ) else 0)
    + (if countQuestionWords text > 1 then (1 / 10 : ℚ) else 0)
    - (if (jsSplitSpace text).length < 5 then (2 / 10 : ℚ) else 0)))

/-! ## Concrete fixtures -/

/-- A pipeline state in a running session (after a successful
`start`), with fresh store and detector. -/
def sRun : PipeState :=
  { isRunning := true, status := PipelineStatus.listening, store := storeInit,
    detector := initialDetectorState, asrPending := 0, events := [] }

/-- A transcription carrying a behavioral interview question. -/
def fragA : TranscriptionResult :=
  { text := "Tell me about a time when you led a team.", language := "en",
    confidence := 1, duration := 3000, timestamp := 4000 }

/-- A transcription carrying a technical interview question. -/
def fragB : TranscriptionResult :=
  { text := "What is the difference between TCP and UDP?", language := "en",
    confidence := 1, duration := 3000, timestamp := 7000 }

/-- Fallback question for `Option.getD` (never actually selected in
the traces below). -/
def dummyQuestion : DetectedQuestion :=
  { text := "", qtype := QuestionType.general, confidence := 0, keywords := [],
    suggestedAnswerFormat := AnswerFormat.concise, timestamp := 0 }

/-- Trace C1, step 1: the first audio chunk enters `handleAudioChunk`
and dispatches its transcription. -/
def c1s1 : PipeState := (pipeBeginChunk sRun).1

/-- Trace C1, step 2: the first transcription resolves with question
A; `generateAnswers` for A starts and its `Promise.all` is pending. -/
def c1step2 : PipeState × Option DetectedQuestion :=
  pipeFinishTranscription (some fragA) 4000 c1s1

/-- Trace C1, step 3: a second chunk enters while A generates. -/
def c1s3 : PipeState := (pipeBeginChunk c1step2.1).1

/-- Trace C1, step 4: the second transcription resolves with question
B; the store is cleared and B becomes the current question while A's
generation is still outstanding. -/
def c1step4 : PipeState × Option DetectedQuestion :=
  pipeFinishTranscription (some fragB) 7000 c1s3

/-- The question detected in trace C1 step 2 (question A). -/
def c1qA : DetectedQuestion := c1step2.2.getD dummyQuestion

/-- Backend responses for question A's three variants. -/
def backendA : AnswerBackend := fun len =>
  match len with
  | AnswerLength.short => Except.ok "For the leadership story, this is the short answer."
  | AnswerLength.medium => Except.ok "For the leadership story, this is the medium answer."
  | AnswerLength.long => Except.ok "For the leadership story, this is the long answer."

/-- Trace C1, final step: question A's generation (started in step 2)
completes after question B became current, and its continuation writes
A's answers into the store. -/
def c1sFinal : PipeState :=
  pipeFinishGeneration c1qA (pipeGenerationOutcome c1qA backendA 9000)
    AnswerLength.medium c1step4.1

/-- Trace C3, step 1: a chunk dispatches its transcription while the
session runs. -/
def c3s1 : PipeState := (pipeBeginChunk sRun).1

/-- Trace C3, step 2: `stop()` is called while that transcription is
still in flight. -/
def c3s2 : PipeState := pipeStop c3s1

/-- Trace C3, step 3: the pre-stop transcription resolves after
`stop()`, and `handleAudioChunk` continues without re-checking
`isRunning`. -/
def c3s3 : PipeState := (pipeFinishTranscription (some fragA) 4000 c3s2).1

/-- The technical question produced by the detector for `fragB`'s
text, written out explicitly. -/
def qTCP : DetectedQuestion :=
  { text := "What is the difference between TCP and UDP?",
    qtype := QuestionType.technical, confidence := mkRat 8 10,
    keywords := ["udp?"], suggestedAnswerFormat := AnswerFormat.technical,
    timestamp := 10000 }

/-- A generation backend that fails for the `long` variant only. -/
def backendLongFails : AnswerBackend := fun len =>
  match len with
  | AnswerLength.long => Except.error "Groq API error: 500 - Internal Server Error"
  | _ => Except.ok "TCP is connection-oriented while UDP is connectionless."

/-- Pipeline state right after `qTCP` was detected, while its
generation is pending. -/
def c2sGen : PipeState :=
  { isRunning := true, status := PipelineStatus.generating,
    store := { storeInit with currentQuestion := some qTCP, isGenerating := true },
    detector := initialDetectorState, asrPending := 0, events := [] }

/-- A pipeline configuration with the Groq provider and no API key. -/
def cfgNoKey : PipelineConfig :=
  { groqApiKey := "", asrProvider := ASRProvider.groq, language := "en",
    defaultAnswerLength := AnswerLength.medium }

/-! ## Claims -/

/-- Claim C1 (code_bug evidence).  The claim says a late generation
result for a superseded question is discarded by an epoch check, so no
observer sees an `AnswerBundle` paired with the wrong question.  The
code has no such check: in the replayed interleaving, question A
("Tell me about a time...") is detected at t=4000 and its generation
starts; question B ("What is the difference between TCP and UDP?") is
detected at t=7000 and becomes current with cleared answers; then A's
generation completes and its continuation writes A's answers
unconditionally.  The final store pairs question B with the answers
generated for question A. -/
theorem c1_late_answers_overwrite :
    c1step2.2.map (fun q => q.text) = some "Tell me about a time when you led a team." ∧
    c1step4.2.map (fun q => q.text) = some "What is the difference between TCP and UDP?" ∧
    c1step4.1.store.currentAnswers = emptyBundle ∧
    c1sFinal.store.currentQuestion.map (fun q => q.text) =
      some "What is the difference between TCP and UDP?" ∧
    (bundleGet c1sFinal.store.currentAnswers AnswerLength.short).map (fun a => a.text) =
      some "For the leadership story, this is the short answer." ∧
    (bundleGet c1sFinal.store.currentAnswers AnswerLength.long).map (fun a => a.text) =
      some "For the leadership story, this is the long answer." := by
  refine ⟨by decide, by decide, by decide, by decide, by decide, by decide⟩

/-- Claim C2 (code_bug evidence).  The claim says that when exactly
one length variant fails, the caller still receives the two successful
variants plus an explicit failure marker.  The code joins the three
variants with `Promise.all`, which rejects as a whole: with a backend
failing only for `long`, `generateAllLengths` returns the bare error
(no variants), and the pipeline's own identical `Promise.all` path
catches it, reports `onError`, and leaves the cleared bundle in place,
so the two successful variants are lost. -/
theorem c2_partial_failure_rejects_all :
    generateAllLengths qTCP backendLongFails 20000 =
      Except.error "Groq API error: 500 - Internal Server Error" ∧
    (pipeFinishGeneration qTCP (pipeGenerationOutcome qTCP backendLongFails 20000)
        AnswerLength.medium c2sGen).store.currentAnswers = emptyBundle ∧
    (pipeFinishGeneration qTCP (pipeGenerationOutcome qTCP backendLongFails 20000)
        AnswerLength.medium c2sGen).events =
      [CbEvent.onError "Groq API error: 500 - Internal Server Error",
       CbEvent.onStatusChange PipelineStatus.listening] := by
  refine ⟨rfl, by decide, by decide⟩

/-- Claim C3 (code_bug evidence).  The claim says that after `stop()`
no observer callback fires and no state is written, because every
result-writing path checks a session-active flag.  The code checks
`isRunning` only at the entry of `handleAudioChunk`: in the replayed
interleaving a transcription dispatched before `stop()` resolves
afterwards, and the continuation still fires `onTranscription`,
detects a question, fires `onQuestionDetected`, and writes the
current-question state. -/
theorem c3_callbacks_after_stop :
    c3s2.isRunning = false ∧
    c3s2.status = PipelineStatus.idle ∧
    CbEvent.onTranscription fragA ∈ c3s3.events ∧
    (c3s3.events.any (fun e =>
      match e with
      | CbEvent.onQuestionDetected _ => true
      | _ => false)) = true ∧
    c3s3.store.currentQuestion.isSome = true := by
  refine ⟨by decide, by decide, by decide, by decide, by decide⟩

/-- Claim C4 (amended).  When audio acquisition cannot start or the
transcription backend rejects its configuration, `start()` returns
false and the pipeline is not running — but its status is set to
`error` (with an `onStatusChange` and an `onError` notification), not
left at `idle` as the claim states. -/
theorem c4_start_failure :
    ∀ (cfg : PipelineConfig) (captureStarted : Bool) (s : PipeState),
    s.isRunning = false →
    (asrInitialize (pipeAsrConfig cfg) = false ∨ captureStarted = false) →
    (pipeStart cfg captureStarted s).1 = false ∧
    (pipeStart cfg captureStarted s).2.isRunning = false ∧
    (pipeStart cfg captureStarted s).2.status = PipelineStatus.error := by
  intro cfg captureStarted s h hor
  cases hasr : asrInitialize (pipeAsrConfig cfg) with
  | false => simp [pipeStart, setStatus, h, hasr]
  | true =>
    rcases hor with h1 | h1
    · rw [hasr] at h1; exact absurd h1 (by simp)
    · simp [pipeStart, setStatus, h, hasr, h1]

/-- Witness for C4: the default Groq configuration with an empty API
key makes `start()` fail from the idle initial state. -/
theorem c4_start_failure_witness :
    (pipeStart cfgNoKey true pipeInit).1 = false ∧
    (pipeStart cfgNoKey true pipeInit).2.isRunning = false ∧
    (pipeStart cfgNoKey true pipeInit).2.status = PipelineStatus.error :=
  c4_start_failure cfgNoKey true pipeInit (by decide) (Or.inl (by decide))

/-- Counterexample for C4 as stated: with a missing API key, `start()`
does return false, but the pipeline does not stay in the `idle`
state — its status is `error`. -/
theorem c4_counterexample :
    (pipeStart cfgNoKey true pipeInit).1 = false ∧
    (pipeStart cfgNoKey true pipeInit).2.status ≠ PipelineStatus.idle := by
  refine ⟨by decide, by decide⟩

/-- Claim C6 (confirmed).  The pending-request counter of the
transcription service never exceeds `maxConcurrentRequests` (2) along
any event sequence; an arrival at the cap is dropped — `transcribe`
returns null without dispatching and the counter is unchanged — and a
completion decrements the counter identically for success and for
backend failure. -/
theorem c6_concurrency_cap :
    (∀ (pending : Nat), pending ≤ maxConcurrentRequests →
      ∀ (events : List AsrEvent), asrRun pending events ≤ maxConcurrentRequests) ∧
    (∀ (pending : Nat), maxConcurrentRequests ≤ pending →
      transcribeBegin pending = none ∧ asrStep pending AsrEvent.arrive = pending) ∧
    (∀ (o1 o2 : Option TranscriptionResult) (pending : Nat),
      transcribeFinish o1 pending = transcribeFinish o2 pending) := by
  refine ⟨?_, ?_, ?_⟩
  · intro pending hp events
    induction events generalizing pending with
    | nil => simpa [asrRun] using hp
    | cons e rest ih =>
      have hstep : asrStep pending e ≤ maxConcurrentRequests := by
        cases e with
        | arrive =>
          by_cases hge : pending ≥ maxConcurrentRequests
          · simp [asrStep, transcribeBegin, hge]
            omega
          · simp [asrStep, transcribeBegin, hge]
            omega
        | complete o =>
          simp [asrStep, transcribeFinish]
          omega
      simpa [asrRun] using ih (asrStep pending e) hstep
  · intro pending hp
    constructor
    · simp [transcribeBegin, hp]
    · simp [asrStep, transcribeBegin, hp]
  · intro o1 o2 pending
    rfl

/-- Witness for C6: from an idle counter, two arrivals fill the cap,
a third is dropped, and the bound holds along the whole trace. -/
theorem c6_concurrency_cap_witness :
    asrRun 0 [AsrEvent.arrive, AsrEvent.arrive, AsrEvent.arrive] ≤ maxConcurrentRequests ∧
    transcribeBegin 2 = none :=
  ⟨c6_concurrency_cap.1 0 (by decide) [AsrEvent.arrive, AsrEvent.arrive, AsrEvent.arrive],
   (c6_concurrency_cap.2.1 2 (by decide)).1⟩



theorem strIncludes_empty (hay : String) : strIncludes hay "" = true := by
  simp only [strIncludes, List.any_eq_true]
  refine ⟨0, ?_, ?_⟩
  · simp [List.mem_range]
  · simp [List.isPrefixOf]

theorem bufferAfterAppend_empty (b : String) : bufferAfterAppend b "" = bufferNormalize b := by
  unfold bufferAfterAppend
  rw [if_pos (strIncludes_empty b)]

/-- The detector state after the dedup-append step for a fragment that
does not lead to an emission: the buffer accumulates and the fragment
becomes the last processed text. -/
def accumState (s : DetectorState) (t : String) : DetectorState :=
  { transcriptionBuffer := bufferAfterAppend s.transcriptionBuffer t,
    lastQuestionTime := s.lastQuestionTime,
    detectedQuestions := s.detectedQuestions,
    lastProcessedText := t }

theorem dq_dup (t : String) (now : Nat) (s : DetectorState) (h : t = s.lastProcessedText) :
    detectQuestion t now s = (none, s) := by
  unfold detectQuestion
  rw [if_pos h]

theorem dq_suppress (t : String) (now : Nat) (s : DetectorState) (q : DetectedQuestion)
    (h1 : t ≠ s.lastProcessedText)
    (h2 : isCompleteSentence (bufferAfterAppend s.transcriptionBuffer t) = true)
    (h3 : analyzeForQuestion (bufferAfterAppend s.transcriptionBuffer t) now = some q)
    (h4 : now - s.lastQuestionTime < minQuestionGapMs) :
    detectQuestion t now s = (none, accumState s t) := by
  unfold detectQuestion accumState
  rw [if_neg h1]
  simp only [h2, h3]
  rw [if_neg (by simp), if_pos h4]

theorem dq_emit (t : String) (now : Nat) (s : DetectorState) (q : DetectedQuestion)
    (h : (detectQuestion t now s).1 = some q) :
    (detectQuestion t now s).2.lastQuestionTime = now ∧
    (detectQuestion t now s).2.lastProcessedText = "" ∧
    (detectQuestion t now s).2.transcriptionBuffer = "" ∧
    isCompleteSentence (bufferAfterAppend s.transcriptionBuffer t) = true := by
  unfold detectQuestion at h ⊢
  by_cases h1 : t = s.lastProcessedText
  · rw [if_pos h1] at h; exact absurd h (by simp)
  · rw [if_neg h1] at h ⊢
    by_cases h2 : isCompleteSentence (bufferAfterAppend s.transcriptionBuffer t) = true
    · simp only [h2] at h ⊢
      cases h3 : analyzeForQuestion (bufferAfterAppend s.transcriptionBuffer t) now with
      | none => simp only [h3] at h ⊢; exact absurd h (by simp)
      | some q2 =>
        simp only [h3] at h ⊢
        by_cases h4 : now - s.lastQuestionTime < minQuestionGapMs
        · rw [if_neg (by simp), if_pos h4] at h; exact absurd h (by simp)
        · rw [if_neg (by simp), if_neg h4] at h ⊢; exact ⟨rfl, rfl, rfl, trivial⟩
    · rw [if_pos (by simp [h2])] at h
      exact absurd h (by simp)

theorem dq_none_last (t : String) (now : Nat) (s : DetectorState)
    (h : (detectQuestion t now s).1 = none) :
    (detectQuestion t now s).2.lastProcessedText = t := by
  unfold detectQuestion at h ⊢
  by_cases h1 : t = s.lastProcessedText
  · rw [if_pos h1]; exact h1.symm
  · rw [if_neg h1] at h ⊢
    by_cases h2 : isCompleteSentence (bufferAfterAppend s.transcriptionBuffer t) = true
    · simp only [h2] at h ⊢
      cases h3 : analyzeForQuestion (bufferAfterAppend s.transcriptionBuffer t) now with
      | none => simp only [h3]; rfl
      | some q2 =>
        simp only [h3] at h ⊢
        by_cases h4 : now - s.lastQuestionTime < minQuestionGapMs
        · rw [if_neg (by simp), if_pos h4]
        · rw [if_neg (by simp), if_neg h4] at h ⊢; exact absurd h (by simp)
    · rw [if_pos (by simp [h2])]



theorem mkRat_eq_div' (n : ℤ) (d : ℕ) : mkRat n d = (n : ℚ) / (d : ℚ) := by
  rw [Rat.mkRat_eq_divInt, Rat.divInt_eq_div]
  norm_cast

theorem dq_buffer (t : String) (now : Nat) (s : DetectorState)
    (h1 : t ≠ s.lastProcessedText) :
    (detectQuestion t now s).2.transcriptionBuffer = bufferAfterAppend s.transcriptionBuffer t ∨
    (detectQuestion t now s).2.transcriptionBuffer = "" := by
  unfold detectQuestion
  rw [if_neg h1]
  by_cases h2 : isCompleteSentence (bufferAfterAppend s.transcriptionBuffer t) = true
  · simp only [h2]
    cases h3 : analyzeForQuestion (bufferAfterAppend s.transcriptionBuffer t) now with
    | none => simp only [h3]; left; rfl
    | some q2 =>
      simp only [h3]
      by_cases h4 : now - s.lastQuestionTime < minQuestionGapMs
      · rw [if_neg (by simp), if_pos h4]; left; rfl
      · rw [if_neg (by simp), if_neg h4]; right; rfl
  · rw [if_pos (by simp [h2])]; left; rfl

/-- State of the C5 counterexample: a complete technical question is
sitting in the buffer (it was suppressed by the debounce when it
arrived at t=5000, shortly after a prior emission), and the debounce
gap has elapsed by t=10000. -/
def c5State : DetectorState :=
  { transcriptionBuffer := "What is the difference between TCP and UDP?",
    lastQuestionTime := 5000, detectedQuestions := [],
    lastProcessedText := "What is the difference between TCP and UDP?" }

/-- Claim C5 (amended).  Feeding the detector an empty fragment never
appends anything to the buffer (the final buffer is the cleared empty
string after an emission, or the old buffer unchanged, or the old
buffer merely normalized); but it is not a state no-op: an emission
can happen, and only when the previously accumulated buffer was
already a complete sentence. -/
theorem c5_empty_fragment :
    ∀ (s : DetectorState) (now : Nat),
    ((detectQuestion "" now s).2.transcriptionBuffer = "" ∨
      (detectQuestion "" now s).2.transcriptionBuffer = s.transcriptionBuffer ∨
      (detectQuestion "" now s).2.transcriptionBuffer = bufferNormalize s.transcriptionBuffer) ∧
    ((detectQuestion "" now s).1.isSome = true →
      isCompleteSentence (bufferNormalize s.transcriptionBuffer) = true) := by
  intro s now
  by_cases h1 : ("" : String) = s.lastProcessedText
  · rw [dq_dup "" now s h1]
    exact ⟨Or.inr (Or.inl rfl), by simp⟩
  · constructor
    · rcases dq_buffer "" now s h1 with h | h
      · right; right; rw [h, bufferAfterAppend_empty]
      · left; exact h
    · intro hs
      obtain ⟨q, hq⟩ := Option.isSome_iff_exists.mp hs
      have := (dq_emit "" now s q hq).2.2.2
      rwa [bufferAfterAppend_empty] at this

/-- Witness for C5 (amended): at the counterexample state the empty
fragment triggers an emission, and the pre-existing buffer was indeed
already complete. -/
theorem c5_empty_fragment_witness :
    ((detectQuestion "" 10000 c5State).2.transcriptionBuffer = "" ∨
      (detectQuestion "" 10000 c5State).2.transcriptionBuffer = c5State.transcriptionBuffer ∨
      (detectQuestion "" 10000 c5State).2.transcriptionBuffer =
        bufferNormalize c5State.transcriptionBuffer) ∧
    isCompleteSentence (bufferNormalize c5State.transcriptionBuffer) = true :=
  ⟨(c5_empty_fragment c5State 10000).1,
   (c5_empty_fragment c5State 10000).2 (by decide)⟩

/-- Counterexample for C5 as stated: with a suppressed question
pending in the buffer, `detectQuestion ""` emits a question and
changes the detector state, so an empty fragment is not a no-op. -/
theorem c5_counterexample :
    ((detectQuestion "" 10000 c5State).1).isSome = true ∧
    (detectQuestion "" 10000 c5State).2 ≠ c5State := by
  refine ⟨by decide, by decide⟩

/-- Detector state for the C7 witness: 1000 ms after an emission. -/
def s7 : DetectorState :=
  { transcriptionBuffer := "", lastQuestionTime := 9000,
    detectedQuestions := [], lastProcessedText := "" }

/-- Claim C7 (confirmed).  First part: when the updated buffer is
complete and classifies as a question but less than `minQuestionGapMs`
has elapsed since the last emission, `detectQuestion` returns `none`
and keeps the accumulated buffer (state `accumState`, whose
`transcriptionBuffer` is the appended buffer — nothing is cleared).
Second part: consequently, whenever a call emits a question, any
second call less than `minQuestionGapMs` later emits nothing, so two
candidate questions within the gap yield exactly one emission. -/
theorem c7_debounce :
    (∀ (s : DetectorState) (t : String) (now : Nat) (q : DetectedQuestion),
      t ≠ s.lastProcessedText →
      isCompleteSentence (bufferAfterAppend s.transcriptionBuffer t) = true →
      analyzeForQuestion (bufferAfterAppend s.transcriptionBuffer t) now = some q →
      now - s.lastQuestionTime < minQuestionGapMs →
      detectQuestion t now s = (none, accumState s t)) ∧
    (∀ (s : DetectorState) (t1 t2 : String) (n1 n2 : Nat) (q : DetectedQuestion),
      (detectQuestion t1 n1 s).1 = some q →
      n2 - n1 < minQuestionGapMs →
      (detectQuestion t2 n2 ((detectQuestion t1 n1 s).2)).1 = none) := by
  constructor
  · intro s t now q h1 h2 h3 h4
    exact dq_suppress t now s q h1 h2 h3 h4
  · intro s t1 t2 n1 n2 q h hgap
    obtain ⟨hT, hP, hB, hC⟩ := dq_emit t1 n1 s q h
    set s1 := (detectQuestion t1 n1 s).2 with hs1
    by_cases hdup : t2 = s1.lastProcessedText
    · rw [dq_dup t2 n2 s1 hdup]
    · unfold detectQuestion
      rw [if_neg hdup]
      by_cases h2 : isCompleteSentence (bufferAfterAppend s1.transcriptionBuffer t2) = true
      · simp only [h2]
        cases h3 : analyzeForQuestion (bufferAfterAppend s1.transcriptionBuffer t2) n2 with
        | none => simp [h3]
        | some q2 =>
          simp only [h3]
          rw [if_neg (by simp), if_pos (by rw [hT]; exact hgap)]
      · rw [if_pos (by simp [h2])]

/-- Witness for C7: the technical question suppressed 1000 ms after an
emission (first part), and a concrete pair of candidate questions
3000 ms and then 1000 ms apart yielding exactly one emission (second
part). -/
theorem c7_debounce_witness :
    detectQuestion "What is the difference between TCP and UDP?" 10000 s7 =
      (none, accumState s7 "What is the difference between TCP and UDP?") ∧
    (detectQuestion "Tell me about a time when you led a team." 11000
      ((detectQuestion "What is the difference between TCP and UDP?" 10000
        initialDetectorState).2)).1 = none :=
  ⟨c7_debounce.1 s7 "What is the difference between TCP and UDP?" 10000 qTCP
      (by decide) (by decide) (by decide) (by decide),
   c7_debounce.2 initialDetectorState "What is the difference between TCP and UDP?"
      "Tell me about a time when you led a team." 10000 11000 qTCP (by decide) (by decide)⟩

/-- Claim C9 (amended).  When a call to `detectQuestion` does not emit
a question, feeding the identical fragment again (at any later time)
is a complete no-op: it returns `none` and leaves the state exactly as
after the first call.  (When the first call does emit, the
last-processed marker is cleared, so the duplicate is re-buffered —
see the counterexample.) -/
theorem c9_duplicate_fragment :
    ∀ (s : DetectorState) (t : String) (n1 n2 : Nat),
    (detectQuestion t n1 s).1 = none →
    detectQuestion t n2 ((detectQuestion t n1 s).2) = (none, (detectQuestion t n1 s).2) := by
  intro s t n1 n2 h
  exact dq_dup t n2 _ (dq_none_last t n1 s h).symm

/-- Witness for C9 (amended): an incomplete fragment is buffered once
and its duplicate is ignored. -/
theorem c9_duplicate_fragment_witness :
    (detectQuestion "Tell" 10000 initialDetectorState).1 = none ∧
    detectQuestion "Tell" 10000 ((detectQuestion "Tell" 10000 initialDetectorState).2) =
      (none, (detectQuestion "Tell" 10000 initialDetectorState).2) :=
  ⟨by decide, c9_duplicate_fragment initialDetectorState "Tell" 10000 10000 (by decide)⟩

/-- Counterexample for C9 as stated: feeding a complete question twice
is not idempotent.  The first call emits and clears the buffer and the
dedup marker; the second, identical fragment is then re-appended, so
the buffer differs from the single-feed state. -/
theorem c9_counterexample :
    ((detectQuestion "What is the difference between TCP and UDP?" 10000
        initialDetectorState).2).transcriptionBuffer = "" ∧
    ((detectQuestion "What is the difference between TCP and UDP?" 10000
        ((detectQuestion "What is the difference between TCP and UDP?" 10000
          initialDetectorState).2)).2).transcriptionBuffer =
      "What is the difference between TCP and UDP?" := by
  refine ⟨by decide, by decide⟩

/-- Text of the C8 counterexample: the same interrogative word twice,
no question mark, eight words. -/
def c8text : String := "what if what if we do this thing"

/-- The situational pattern matching the C8 counterexample text. -/
def c8pat : QPattern := ["what if"]

/-- Claim C8 (amended).  For every text and pattern that matches it,
the computed confidence equals: 0.6, plus 0.2 if the text contains a
question mark, plus 0.1 if the interrogative-word regex finds more
than one match (counted with multiplicity, not distinct words), minus
0.2 if splitting at single spaces yields fewer than 5 parts, clamped
to [0,1]. -/
theorem c8_confidence_formula :
    ∀ (text : String) (pattern : QPattern),
    patTest pattern text = true →
    calculateConfidence text pattern = specConfidenceAmended text := by
  intro text pattern h
  unfold calculateConfidence specConfidenceAmended
  rw [if_neg (by simp [h])]
  simp only [jsAdd_eq, jsSub_eq, jsMin_eq, jsMax_eq, mkRat_eq_div']
  push_cast
  split_ifs <;> norm_num

/-- Witness for C8 (amended): the formula evaluated at the concrete
counterexample text and pattern. -/
theorem c8_confidence_formula_witness :
    calculateConfidence c8text c8pat = specConfidenceAmended c8text :=
  c8_confidence_formula c8text c8pat (by decide)

/-- Counterexample for C8 as stated: `c8pat` is a classification
pattern of the table and matches `c8text`; the code computes 0.7
(the bonus fires because the regex finds two matches of "what"), but
the claimed formula with *distinct* interrogative words gives 0.6. -/
theorem c8_counterexample :
    (QUESTION_PATTERNS.any (fun e => e.2.contains c8pat)) = true ∧
    patTest c8pat c8text = true ∧
    calculateConfidence c8text c8pat = mkRat 7 10 ∧
    specConfidenceClaimed c8text = mkRat 6 10 ∧
    calculateConfidence c8text c8pat ≠ specConfidenceClaimed c8text := by
  have h1 : (QUESTION_PATTERNS.any (fun e => e.2.contains c8pat)) = true := by decide
  have h2 : patTest c8pat c8text = true := by decide
  have h3 : calculateConfidence c8text c8pat = mkRat 7 10 := by decide
  have h4 : specConfidenceClaimed c8text = mkRat 6 10 := by
    have hq : strIncludes c8text "?" = false := by decide
    have hd : distinctQuestionWordCount c8text = 1 := by decide
    have hw : (jsSplitWs c8text).length = 8 := by decide
    unfold specConfidenceClaimed
    rw [hq, hd, hw]
    norm_num [mkRat_eq_div']
  refine ⟨h1, h2, h3, h4, ?_⟩
  rw [h3, h4]
  decide

/-- The VAD boolean agrees with the specification-side statement "the
root-mean-square energy strictly exceeds 0.01" (and the segment is
nonempty). -/
theorem detectVoiceActivity_iff (l : List ℚ) :
    detectVoiceActivity l = true ↔ (l ≠ [] ∧ rmsEnergy l > (0.01 : ℝ)) := by
  unfold detectVoiceActivity rmsEnergy
  by_cases hl : l.length = 0
  · simp [hl, List.length_eq_zero.mp hl]
  · rw [if_neg hl]
    have hne : l ≠ [] := fun he => hl (by simp [he])
    have hlpos : (0 : ℝ) < (l.length : ℝ) := by
      exact_mod_cast Nat.pos_of_ne_zero hl
    rw [jsLt_iff, jsMul_eq, jsDivNat_eq]
    constructor
    · intro hlt
      refine ⟨hne, ?_⟩
      rw [gt_iff_lt, show (0.01 : ℝ) = 1 / 100 by norm_num,
        Real.lt_sqrt (by norm_num)]
      have hcast : ((vadThreshold * vadThreshold : ℚ) : ℝ) <
          ((sumSquares l / (l.length : ℚ) : ℚ) : ℝ) := by exact_mod_cast hlt
      rw [Rat.cast_div, Rat.cast_mul] at hcast
      have hth : ((vadThreshold : ℚ) : ℝ) = 1 / 100 := by
        rw [vadThreshold, mkRat_eq_div']
        push_cast
        norm_num
      rw [hth] at hcast
      calc (1 / 100 : ℝ) ^ 2 = 1 / 100 * (1 / 100) := by ring
      _ < ((sumSquares l : ℚ) : ℝ) / ((l.length : ℚ) : ℝ) := hcast
      _ = ((sumSquares l : ℚ) : ℝ) / (l.length : ℝ) := by norm_cast
    · intro ⟨hne2, hrms⟩
      rw [gt_iff_lt, show (0.01 : ℝ) = 1 / 100 by norm_num,
        Real.lt_sqrt (by norm_num)] at hrms
      have hth : ((vadThreshold : ℚ) : ℝ) = 1 / 100 := by
        rw [vadThreshold, mkRat_eq_div']
        push_cast
        norm_num
      have : ((vadThreshold * vadThreshold : ℚ) : ℝ) <
          ((sumSquares l / (l.length : ℚ) : ℚ) : ℝ) := by
        rw [Rat.cast_div, Rat.cast_mul, hth]
        calc (1 / 100 : ℝ) * (1 / 100) = (1 / 100 : ℝ) ^ 2 := by ring
        _ < ((sumSquares l : ℚ) : ℝ) / (l.length : ℝ) := hrms
        _ = ((sumSquares l : ℚ) : ℝ) / ((l.length : ℚ) : ℝ) := by norm_cast
      exact_mod_cast this

/-- Claim C10 (confirmed).  With a callback installed, a chunk-timer
tick invokes the callback exactly when the accumulated segment is
nonempty and its RMS energy strictly exceeds 0.01; in particular an
empty accumulation or an at-or-below-threshold segment produces no
emission, so such a frame never reaches the transcription client. -/
theorem c10_silence_suppression :
    ∀ (s : AudioState) (now : Nat), s.hasCallback = true →
    ((emitChunk now s).1.isSome = true ↔
      (s.audioBuffer.flatten ≠ [] ∧ rmsEnergy s.audioBuffer.flatten > (0.01 : ℝ))) := by
  intro s now hcb
  unfold emitChunk
  rw [hcb]
  by_cases hb : s.audioBuffer.isEmpty = true
  · rw [if_pos (by simp [hb])]
    simp [List.isEmpty_iff.mp hb]
  · rw [if_neg (by simp [hb])]
    have : ((if detectVoiceActivity s.audioBuffer.flatten then
        some { data := s.audioBuffer.flatten, timestamp := s.lastChunkTime,
               duration := now - s.lastChunkTime }
      else none : Option AudioChunk)).isSome = detectVoiceActivity s.audioBuffer.flatten := by
      cases hv : detectVoiceActivity s.audioBuffer.flatten <;> simp [hv]
    rw [this]
    exact detectVoiceActivity_iff s.audioBuffer.flatten

/-- Audio state for the C10 witness: two buffered half-amplitude
samples (RMS 0.5). -/
def c10Audio : AudioState :=
  { audioBuffer := [[mkRat 1 2], [mkRat 1 2]], hasCallback := true, lastChunkTime := 0 }

/-- Witness for C10: the loud segment is emitted. -/
theorem c10_silence_suppression_witness :
    (emitChunk 3000 c10Audio).1.isSome = true := by
  apply (c10_silence_suppression c10Audio 3000 rfl).mpr
  constructor
  · decide
  · have hs : sumSquares c10Audio.audioBuffer.flatten = mkRat 1 2 := by decide
    have hlen : (c10Audio.audioBuffer.flatten.length : ℝ) = 2 := by norm_num [c10Audio]
    unfold rmsEnergy
    rw [hs, hlen, mkRat_eq_div']
    rw [gt_iff_lt, show (0.01 : ℝ) = 1 / 100 by norm_num, Real.lt_sqrt (by norm_num)]
    push_cast
    norm_num

end RedParrot
